import Mathlib

/-!
Shallow embedding of the locomotion engine of the immersive-web-sdk
repository: the physics utility functions and trajectory math inlined in
`packages/locomotor/tests/physics-utils.test.ts` and
`packages/locomotor/tests/math-utils.test.ts`, and the worker message
dispatcher of the locomotor worker script.  Real-number arithmetic of the
source is embedded over `ℝ` (or over `ℚ` where only exact comparisons
occur); the NaN sentinel of the wire format is embedded as an explicit
slot constructor.
-/

namespace PhysicsUtils

/-- Embeds `PhysicsUtils.calculateGroundingThreshold` from
`physics-utils.test.ts`: `floatHeight + capsuleRadius + buffer`.  The
source declares the default `buffer = 0.15`; the default is passed
explicitly at use sites here. -/
def calculateGroundingThreshold (floatHeight capsuleRadius buffer : ℚ) : ℚ :=
  floatHeight + capsuleRadius + buffer

/-- Embeds `PhysicsUtils.isGrounded`: `groundDistance < groundingThreshold`. -/
def isGrounded (groundDistance groundingThreshold : ℚ) : Bool :=
  decide (groundDistance < groundingThreshold)

end PhysicsUtils

/-- A three.js `Vector3` over the reals. -/
structure Vec3R where
  x : ℝ
  y : ℝ
  z : ℝ

namespace Vec3R

/-- Embeds `Vector3.dot`. -/
def dot (a b : Vec3R) : ℝ := a.x * b.x + a.y * b.y + a.z * b.z

/-- Embeds `Vector3.lengthSq`: `x*x + y*y + z*z`. -/
def lengthSq (v : Vec3R) : ℝ := v.x * v.x + v.y * v.y + v.z * v.z

/-- Embeds `Vector3.length`: `Math.sqrt(lengthSq)`. -/
noncomputable def length (v : Vec3R) : ℝ := Real.sqrt v.lengthSq

/-- Embeds `Vector3.multiplyScalar`. -/
def smul (c : ℝ) (v : Vec3R) : Vec3R := ⟨c * v.x, c * v.y, c * v.z⟩

/-- Embeds three.js `MathUtils.clamp(value, min, max)`:
`Math.max(min, Math.min(max, value))`. -/
def clamp (value lo hi : ℝ) : ℝ := max lo (min hi value)

/-- Embeds `Vector3.angleTo`:
`Math.acos(clamp(dot / Math.sqrt(lengthSq * lengthSq), -1, 1))`. -/
noncomputable def angleTo (a b : Vec3R) : ℝ :=
  Real.arccos (clamp (a.dot b / Real.sqrt (a.lengthSq * b.lengthSq)) (-1) 1)

/-- Embeds `Vector3.normalize`: `divideScalar(length || 1)`; a zero-length vector
is divided by `1`. -/
noncomputable def normalize (v : Vec3R) : Vec3R :=
  smul (1 / (if v.length = 0 then 1 else v.length)) v

end Vec3R

namespace PhysicsUtils

/-- Embeds `PhysicsUtils.isWalkableSlope`:
`surfaceNormal.angleTo(upAxis) < maxSlope` (a strict comparison in the
source). -/
def isWalkableSlope (surfaceNormal upAxis : Vec3R) (maxSlope : ℝ) : Prop :=
  surfaceNormal.angleTo upAxis < maxSlope

/-- Embeds `PhysicsUtils.capVelocity`:
`if (velocity.lengthSq() > maxVelocity * maxVelocity)
   velocity.normalize().multiplyScalar(maxVelocity)`. -/
noncomputable def capVelocity (velocity : Vec3R) (maxVelocity : ℝ) : Vec3R :=
  if velocity.lengthSq > maxVelocity * maxVelocity then
    Vec3R.smul maxVelocity velocity.normalize
  else
    velocity

end PhysicsUtils

namespace MathUtils

/-- The end-time computation shared verbatim by `calculateTrajectoryBounds`
and `sampleParabolicCurve` in `math-utils.test.ts`:
`a = 0.5*gravity`, `b = direction.y`, `c = origin.y - minY`,
`tEnd = (-b + sqrt(b*b - 4*a*c)) / (2*a)`. -/
noncomputable def tEnd (originY dirY minY gravity : ℝ) : ℝ :=
  (-dirY + Real.sqrt (dirY * dirY - 4 * (0.5 * gravity) * (originY - minY))) /
    (2 * (0.5 * gravity))

/-- The trajectory quadratic `(1/2)*g*t^2 + V_y*t + (P_y - minY)` whose
roots are the times at which the unimpeded arc reaches `minY`. -/
def trajQuadratic (originY dirY minY gravity t : ℝ) : ℝ :=
  0.5 * gravity * t ^ 2 + dirY * t + (originY - minY)

/-- A three.js `Box3` over the reals. -/
structure Box3R where
  min : Vec3R
  max : Vec3R

/-- Embeds `calculateTrajectoryBounds` from `math-utils.test.ts`.  The
source computes `tEnd` inline by the same formula as `tEnd` above. -/
noncomputable def calculateTrajectoryBounds
    (origin direction : Vec3R) (minY gravity : ℝ) : Box3R :=
  let t := tEnd origin.y direction.y minY gravity
  let tPeak := -direction.y / gravity
  let peakY :=
    if tPeak > 0 then origin.y + direction.y * direction.y / (2 * |gravity|)
    else origin.y
  let endX := origin.x + direction.x * t
  let endZ := origin.z + direction.z * t
  ⟨⟨Min.min origin.x endX, minY, Min.min origin.z endZ⟩,
   ⟨Max.max origin.x endX, Max.max origin.y peakY, Max.max origin.z endZ⟩⟩

/-- Embeds `sampleParabolicCurve` from `math-utils.test.ts`: entry `k` of
the output (for `k < numPoints`) is written by loop iteration
`i = k + offset` with `t = i / (offset + numPoints - 1)`,
`tReal = t * tEnd`, and position
`start + direction * tReal + (0, 0.5 * gravity * tReal^2, 0)`. -/
noncomputable def sampleParabolicCurve
    (start direction : Vec3R) (minY gravity : ℝ)
    (numPoints offset : ℕ) : List Vec3R :=
  let t0 := tEnd start.y direction.y minY gravity
  (List.range numPoints).map (fun k =>
    let t : ℝ := (↑(k + offset) : ℝ) / (↑(offset + numPoints - 1) : ℝ)
    let tReal := t * t0
    ⟨start.x + direction.x * tReal,
     start.y + direction.y * tReal + 0.5 * gravity * tReal * tReal,
     start.z + direction.z * tReal⟩)

end MathUtils

namespace Worker

/-!
Embedding of the locomotor worker script (the `onmessage` dispatcher and
the `update` tick function).  The `LocomotionEngine` class itself is not
part of the sources; its observable fields and its methods are therefore
modelled from the spec: the engine state is a record of the fields the
worker reads and writes, and each engine method is a parameter (a field of
`EngineOps`) so that the worker-level theorems hold for every behaviour of
the missing engine code.  Message payload slots that the worker fills with
`NaN` sentinels are embedded as an explicit `Slot.nan` constructor; the
numeric values of the `MessageType` enum members are opaque, so the kind
tag is embedded as the enum member itself.
-/

/-- The `MessageType` enum of the worker protocol. -/
inductive MessageType where
  | Init
  | Config
  | AddEnvironment
  | RemoveEnvironment
  | UpdateKinematicEnvironment
  | Slide
  | Teleport
  | Jump
  | ParabolicRaycast
  | PositionUpdate
  | RaycastUpdate
deriving DecidableEq, Repr

/-- One slot of a flat hot-path message array: a number, the `NaN`
sentinel, or a `MessageType` kind tag. -/
inductive Slot where
  | nan
  | num (q : ℚ)
  | tag (t : MessageType)
deriving DecidableEq, Repr

/-- A three.js `Vector3` restricted to exact (rational) coordinates, for
the worker-level messages. -/
structure Vec3Q where
  x : ℚ
  y : ℚ
  z : ℚ
deriving DecidableEq, Repr

/-- The environment kind string sent with `AddEnvironment`
(`payload.type || 'STATIC'`). -/
inductive EnvKind where
  | STATIC
  | KINEMATIC
deriving DecidableEq, Repr

/-- A hit triangle face as the worker reads it: `intersect.face.normal`. -/
structure Face where
  normal : Vec3Q
deriving DecidableEq, Repr

/-- An intersection result as the worker reads it: `intersect.point` and
the optional `intersect.face`. -/
structure Intersect where
  point : Vec3Q
  face : Option Face
deriving DecidableEq, Repr

/-- Modelled from the spec: the observable state of the missing
`LocomotionEngine` class — the player position, the `grounded` and
`updating` flags, and the configuration fields that the worker's `Config`
handler assigns (`rayGravity`, `jumpHeight`, `jumpCooldown`) or sets
through `setMaxDropDistance` (`maxDropDistance`). -/
structure Engine where
  playerPosition : Vec3Q
  isGrounded : Bool
  updating : Bool
  rayGravity : ℚ
  maxDropDistance : ℚ
  jumpHeight : ℚ
  jumpCooldown : ℚ
deriving DecidableEq, Repr

/-- Modelled from the spec: the methods of the missing `LocomotionEngine`
class, passed to the worker dispatcher as parameters so that every
worker-level theorem holds for any engine behaviour.  `parabolicRaycast`
returns only an optional intersection — per the spec, raycast requests do
not mutate registry or player state. -/
structure EngineOps where
  mk0 : Vec3Q → Engine
  addEnvironment : Engine → ℤ → List ℚ → List ℤ → EnvKind → List ℚ → Engine
  removeEnvironment : Engine → ℤ → Engine
  setMaxDropDistance : Engine → ℚ → Engine
  slide : Engine → Vec3Q → Engine
  teleport : Engine → Vec3Q → Engine
  jump : Engine → Engine
  updateKinematicPlatform : Engine → ℤ → List ℚ → Engine
  parabolicRaycast : Engine → Vec3Q → Vec3Q → Option Intersect
  update : Engine → ℚ → Engine

/-- The worker's module state: the (initially undefined) `engine`
variable, the `environments` handle set, and the `updateFrequency`
variable. -/
structure WorkerState where
  engine : Option Engine
  environments : Finset ℤ
  updateFrequency : ℚ
deriving DecidableEq

/-- The worker state at script load: no engine, no tracked environments,
`updateFrequency = 60`. -/
def initState : WorkerState := ⟨none, ∅, 60⟩

/-- An incoming host message, one constructor per `case` of the worker's
`onmessage`, with `Option` marking the payload fields whose absence the
dispatcher distinguishes. -/
inductive HostMsg where
  | Init (initialPlayerPosition : Vec3Q)
  | Config (rayGravity maxDropDistance jumpHeight jumpCooldown updateFrequency : Option ℚ)
  | AddEnvironment (handle : ℤ) (positions : Option (List ℚ))
      (indices : Option (List ℤ)) (envType : Option EnvKind)
      (worldMatrix : Option (List ℚ))
  | RemoveEnvironment (handle : ℤ)
  | UpdateKinematicEnvironment (handle : ℤ) (worldMatrix : List ℚ)
  | Slide (v : Vec3Q)
  | Teleport (p : Vec3Q)
  | Jump
  | ParabolicRaycast (origin direction : Vec3Q)

/-- The identity `Matrix4` (`new Matrix4()`), 16 elements column-major. -/
def identity16 : List ℚ := [1, 0, 0, 0, 0, 1, 0, 0, 0, 0, 1, 0, 0, 0, 0, 1]

/-- One guarded engine-field write of the `Config` handler: a present
payload field is written to `engine` unconditionally, which throws a
`TypeError` (modelled as `Except.error`) when `engine` is still
undefined. -/
def configStep (s : WorkerState) (v : Option ℚ)
    (f : Engine → ℚ → Engine) : Except Unit WorkerState :=
  match v with
  | none => .ok s
  | some q =>
    match s.engine with
    | none => .error ()
    | some e => .ok { s with engine := some (f e q) }

/-- Builds the 7-slot `RaycastUpdate` response exactly as the
`ParabolicRaycast` case does: `new Array(7).fill(NaN)`, the kind tag at
slot 0, then `intersect.point.toArray(response, 1)` when the intersect is
truthy and `intersect.face.normal.toArray(response, 4)` when the face is
truthy. -/
def buildRaycastResponse (intersect : Option Intersect) : List Slot :=
  match intersect with
  | none =>
    [.tag .RaycastUpdate, .nan, .nan, .nan, .nan, .nan, .nan]
  | some i =>
    match i.face with
    | none =>
      [.tag .RaycastUpdate, .num i.point.x, .num i.point.y, .num i.point.z,
        .nan, .nan, .nan]
    | some f =>
      [.tag .RaycastUpdate, .num i.point.x, .num i.point.y, .num i.point.z,
        .num f.normal.x, .num f.normal.y, .num f.normal.z]

/-- Embeds the worker's `onmessage` dispatcher.  The result is the new
worker state together with the list of messages posted while handling the
message; `Except.error` marks an uncaught `TypeError` (a throwing handler
changes no committed state and posts nothing). -/
def onmessage (ops : EngineOps) (s : WorkerState) (m : HostMsg) :
    Except Unit (WorkerState × List (List Slot)) :=
  match m with
  | .Init pos =>
    .ok ({ s with engine := some (ops.mk0 pos) }, [])
  | .AddEnvironment handle positions indices envType worldMatrix =>
    match s.engine, positions, indices with
    | some e, some pos, some idx =>
      if handle ≠ 0 then
        .ok ({ s with
                engine := some (ops.addEnvironment e handle pos idx
                  (envType.getD .STATIC) (worldMatrix.getD identity16)),
                environments := insert handle s.environments }, [])
      else .ok (s, [])
    | _, _, _ => .ok (s, [])
  | .RemoveEnvironment handle =>
    match s.engine with
    | some e =>
      if handle ≠ 0 then
        .ok ({ s with
                engine := some (ops.removeEnvironment e handle),
                environments := s.environments.erase handle }, [])
      else .ok (s, [])
    | none => .ok (s, [])
  | .Config rg mdd jh jc uf => do
    let s1 ← configStep s rg (fun e q => { e with rayGravity := q })
    let s2 ← configStep s1 mdd (fun e q => ops.setMaxDropDistance e q)
    let s3 ← configStep s2 jh (fun e q => { e with jumpHeight := q })
    let s4 ← configStep s3 jc (fun e q => { e with jumpCooldown := q })
    .ok ({ s4 with updateFrequency := uf.getD s4.updateFrequency }, [])
  | .Slide v =>
    match s.engine with
    | some e => .ok ({ s with engine := some (ops.slide e v) }, [])
    | none => .ok (s, [])
  | .Teleport p =>
    match s.engine with
    | some e => .ok ({ s with engine := some (ops.teleport e p) }, [])
    | none => .ok (s, [])
  | .ParabolicRaycast origin direction =>
    let intersect :=
      match s.engine with
      | some e => ops.parabolicRaycast e origin direction
      | none => none
    .ok (s, [buildRaycastResponse intersect])
  | .UpdateKinematicEnvironment handle worldMatrix =>
    match s.engine with
    | some e =>
      if handle ∈ s.environments then
        .ok ({ s with
                engine := some (ops.updateKinematicPlatform e handle worldMatrix) },
              [])
      else .ok (s, [])
    | none => .ok (s, [])
  | .Jump =>
    match s.engine with
    | some e => .ok ({ s with engine := some (ops.jump e) }, [])
    | none => .ok (s, [])

/-- Embeds one invocation of the worker's `update` tick function:
`engine?.update(1 / updateFrequency)`, then, when `engine?.updating`, a
7-slot `PositionUpdate` response with the kind tag at slot 0, the player
position at slots 1-3, and `response[5] = isGrounded ? 1 : 0` (slots 4
and 6 keep the `NaN` fill). -/
def update (ops : EngineOps) (s : WorkerState) :
    WorkerState × List (List Slot) :=
  match s.engine with
  | none => (s, [])
  | some e =>
    let e2 := ops.update e (1 / s.updateFrequency)
    let s2 := { s with engine := some e2 }
    if e2.updating then
      (s2,
        [[.tag .PositionUpdate, .num e2.playerPosition.x,
          .num e2.playerPosition.y, .num e2.playerPosition.z, .nan,
          .num (if e2.isGrounded then 1 else 0), .nan]])
    else (s2, [])

/-- A concrete engine value used by witnesses. -/
def engine0 : Engine :=
  ⟨⟨0, 0, 0⟩, false, false, -4/10, 5, 3/2, 1/10⟩

/-- Modelled from the spec: a concrete instantiation of the missing
engine methods, used by witnesses and counterexamples.  `mk0` places the
player at the initial position; the mutating methods keep the state;
`parabolicRaycast` reports no hit. -/
def trivialOps : EngineOps where
  mk0 := fun pos => { engine0 with playerPosition := pos }
  addEnvironment := fun e _ _ _ _ _ => e
  removeEnvironment := fun e _ => e
  setMaxDropDistance := fun e q => { e with maxDropDistance := q }
  slide := fun e _ => e
  teleport := fun e p => { e with playerPosition := p }
  jump := fun e => e
  updateKinematicPlatform := fun e _ _ => e
  parabolicRaycast := fun _ _ _ => none
  update := fun e _ => e

end Worker

namespace Worker

/-- A worker state with an initialized engine, used by witnesses. -/
def sEng : WorkerState := ⟨some engine0, ∅, 60⟩

/-- Modelled from the spec: engine methods whose `update` leaves the engine
updating and grounded, for exercising the position-update path. -/
def updOps : EngineOps :=
  { trivialOps with update := fun e _ => { e with updating := true, isGrounded := true } }

/-- Modelled from the spec: engine methods whose parabolic raycast reports
a hit with point `(1, 2, 3)` and face normal `(0, 1, 0)`. -/
def hitOps : EngineOps :=
  { trivialOps with
      parabolicRaycast := fun _ _ _ => some ⟨⟨1, 2, 3⟩, some ⟨⟨0, 1, 0⟩⟩⟩ }

end Worker

/-- Claim C10: an `AddEnvironment` or `RemoveEnvironment` message whose
handle equals 0 is ignored entirely — regardless of whether the engine has
been initialized, the worker state (tracked-handle set included) is
unchanged and no message is posted, so handle 0 is unusable at the public
interface. -/
theorem handle_zero_ignored
    (ops : Worker.EngineOps) (s : Worker.WorkerState)
    (positions : Option (List ℚ)) (indices : Option (List ℤ))
    (envType : Option Worker.EnvKind) (worldMatrix : Option (List ℚ)) :
    Worker.onmessage ops s
        (.AddEnvironment 0 positions indices envType worldMatrix)
      = .ok (s, []) ∧
    Worker.onmessage ops s (.RemoveEnvironment 0) = .ok (s, []) := by
  constructor
  · cases h : s.engine <;> cases positions <;> cases indices <;>
      simp [Worker.onmessage, h]
  · cases h : s.engine <;> simp [Worker.onmessage, h]

/-- Claim C6 counterexample: after `Init`, an `AddEnvironment` message with
handle 7, a positions array, a kind, and a world matrix but no indices
array is dropped — the worker state is returned unchanged and the handle
is not tracked — refuting the claim that the environment is still
inserted. -/
theorem addEnvironment_no_indices_cex :
    Worker.onmessage Worker.trivialOps Worker.sEng
        (.AddEnvironment 7 (some [0, 0, 0, 1, 0, 0, 0, 1, 0]) none
          (some .STATIC) (some Worker.identity16))
      = .ok (Worker.sEng, []) ∧
    (7 : ℤ) ∉ Worker.sEng.environments := by
  constructor
  · rfl
  · simp [Worker.sEng]

/-- Claim C6 amended: after `Init`, an `AddEnvironment` message that omits
the optional indices array is ignored (no insertion, no tracking, no
outbound message); an environment is inserted only when the handle is
non-zero and the positions and indices arrays are both present, in which
case the handle is tracked and the add is forwarded to the engine. -/
theorem addEnvironment_requires_indices
    (ops : Worker.EngineOps) (s : Worker.WorkerState) (e : Worker.Engine)
    (handle : ℤ) (pos : List ℚ) (idx : List ℤ)
    (envType : Option Worker.EnvKind) (worldMatrix : Option (List ℚ))
    (hs : s.engine = some e) (hh : handle ≠ 0) :
    Worker.onmessage ops s
        (.AddEnvironment handle (some pos) none envType worldMatrix)
      = .ok (s, []) ∧
    Worker.onmessage ops s
        (.AddEnvironment handle (some pos) (some idx) envType worldMatrix)
      = .ok ({ s with
                engine := some (ops.addEnvironment e handle pos idx
                  (envType.getD .STATIC) (worldMatrix.getD Worker.identity16)),
                environments := insert handle s.environments }, []) := by
  constructor
  · simp [Worker.onmessage, hs]
  · simp [Worker.onmessage, hs, hh]

/-- Claim C6 witness: the amended theorem at handle 1, a one-triangle
positions array, an empty indices array, kind `STATIC`, and the identity
matrix. -/
theorem addEnvironment_requires_indices_witness :
    Worker.onmessage Worker.trivialOps Worker.sEng
        (.AddEnvironment 1 (some [0, 0, 0, 1, 0, 0, 0, 1, 0]) none
          (some .STATIC) (some Worker.identity16))
      = .ok (Worker.sEng, []) ∧
    Worker.onmessage Worker.trivialOps Worker.sEng
        (.AddEnvironment 1 (some [0, 0, 0, 1, 0, 0, 0, 1, 0]) (some [])
          (some .STATIC) (some Worker.identity16))
      = .ok ({ Worker.sEng with
                engine := some (Worker.trivialOps.addEnvironment Worker.engine0 1
                  [0, 0, 0, 1, 0, 0, 0, 1, 0] []
                  ((some Worker.EnvKind.STATIC).getD .STATIC)
                  ((some Worker.identity16).getD Worker.identity16)),
                environments := insert 1 Worker.sEng.environments }, []) :=
  addEnvironment_requires_indices Worker.trivialOps Worker.sEng Worker.engine0
    1 [0, 0, 0, 1, 0, 0, 0, 1, 0] [] (some .STATIC) (some Worker.identity16)
    rfl (by decide)

/-- Reduction of the `Except` bind on a success value. -/
@[simp] theorem except_bind_ok {ε α β : Type} (a : α) (f : α → Except ε β) :
    (Except.ok a : Except ε α) >>= f = f a := rfl

/-- Reduction of the `Except` bind on an error value. -/
@[simp] theorem except_bind_error {ε α β : Type} (e : ε) (f : α → Except ε β) :
    (Except.error e : Except ε α) >>= f = Except.error e := rfl

/-- Claim C2 counterexample: before any `Init`, a `ParabolicRaycast`
message is not ignored — the worker still posts one `RaycastUpdate`
response (all payload slots NaN) — and a `Config` message carrying
`rayGravity` is not processed normally: the handler dereferences the
undefined engine and throws. -/
theorem before_init_cex :
    Worker.onmessage Worker.trivialOps Worker.initState
        (.ParabolicRaycast ⟨0, 0, 0⟩ ⟨1, 2, 3⟩)
      = .ok (Worker.initState,
          [[.tag .RaycastUpdate, .nan, .nan, .nan, .nan, .nan, .nan]]) ∧
    [[Worker.Slot.tag .RaycastUpdate, .nan, .nan, .nan, .nan, .nan, .nan]]
      ≠ ([] : List (List Worker.Slot)) ∧
    Worker.onmessage Worker.trivialOps Worker.initState
        (.Config (some 1) none none none none)
      = .error () := by
  refine ⟨rfl, by simp, rfl⟩

/-- Claim C2 amended: before any `Init` has been received, `Slide`,
`Teleport`, `Jump`, `AddEnvironment`, `RemoveEnvironment`, and
`UpdateKinematicEnvironment` messages are ignored (no state change, no
outbound message); a `ParabolicRaycast` changes no state but posts one
all-NaN `RaycastUpdate`; `Init` is processed normally (the engine is
created); a `Config` carrying only `updateFrequency` is processed
normally, while a `Config` carrying any of `rayGravity`,
`maxDropDistance`, `jumpHeight`, or `jumpCooldown` throws on the
undefined engine. -/
theorem before_init_dispatch
    (ops : Worker.EngineOps) (s : Worker.WorkerState)
    (v p o d pos : Worker.Vec3Q) (handle : ℤ)
    (positions : Option (List ℚ)) (indices : Option (List ℤ))
    (envType : Option Worker.EnvKind) (worldMatrix : Option (List ℚ))
    (km : List ℚ) (rg mdd jh jc uf : Option ℚ)
    (hnone : s.engine = none) :
    Worker.onmessage ops s (.Slide v) = .ok (s, []) ∧
    Worker.onmessage ops s (.Teleport p) = .ok (s, []) ∧
    Worker.onmessage ops s .Jump = .ok (s, []) ∧
    Worker.onmessage ops s
        (.AddEnvironment handle positions indices envType worldMatrix)
      = .ok (s, []) ∧
    Worker.onmessage ops s (.RemoveEnvironment handle) = .ok (s, []) ∧
    Worker.onmessage ops s (.UpdateKinematicEnvironment handle km)
      = .ok (s, []) ∧
    Worker.onmessage ops s (.ParabolicRaycast o d)
      = .ok (s, [[.tag .RaycastUpdate, .nan, .nan, .nan, .nan, .nan, .nan]]) ∧
    Worker.onmessage ops s (.Init pos)
      = .ok ({ s with engine := some (ops.mk0 pos) }, []) ∧
    Worker.onmessage ops s (.Config none none none none uf)
      = .ok ({ s with updateFrequency := uf.getD s.updateFrequency }, []) ∧
    ((rg.isSome ∨ mdd.isSome ∨ jh.isSome ∨ jc.isSome) →
      Worker.onmessage ops s (.Config rg mdd jh jc uf) = .error ()) := by
  refine ⟨?_, ?_, ?_, ?_, ?_, ?_, ?_, rfl, ?_, ?_⟩
  · simp [Worker.onmessage, hnone]
  · simp [Worker.onmessage, hnone]
  · simp [Worker.onmessage, hnone]
  · cases positions <;> cases indices <;> simp [Worker.onmessage, hnone]
  · simp [Worker.onmessage, hnone]
  · simp [Worker.onmessage, hnone]
  · simp [Worker.onmessage, hnone, Worker.buildRaycastResponse]
  · simp [Worker.onmessage, Worker.configStep]
  · intro h
    cases rg with
    | some q => simp [Worker.onmessage, Worker.configStep, hnone]
    | none =>
      cases mdd with
      | some q => simp [Worker.onmessage, Worker.configStep, hnone]
      | none =>
        cases jh with
        | some q => simp [Worker.onmessage, Worker.configStep, hnone]
        | none =>
          cases jc with
          | some q => simp [Worker.onmessage, Worker.configStep, hnone]
          | none => simp at h

/-- Claim C2 witness: the amended theorem at the initial worker state with
concrete payloads (a `Config` carrying `jumpHeight = 2` among them). -/
theorem before_init_dispatch_witness :
    Worker.onmessage Worker.trivialOps Worker.initState (.Slide ⟨1, 0, 0⟩)
      = .ok (Worker.initState, []) ∧
    Worker.onmessage Worker.trivialOps Worker.initState (.Teleport ⟨0, 5, 0⟩)
      = .ok (Worker.initState, []) ∧
    Worker.onmessage Worker.trivialOps Worker.initState .Jump
      = .ok (Worker.initState, []) ∧
    Worker.onmessage Worker.trivialOps Worker.initState
        (.AddEnvironment 3 (some [0, 0, 0]) (some [0]) none none)
      = .ok (Worker.initState, []) ∧
    Worker.onmessage Worker.trivialOps Worker.initState (.RemoveEnvironment 3)
      = .ok (Worker.initState, []) ∧
    Worker.onmessage Worker.trivialOps Worker.initState
        (.UpdateKinematicEnvironment 3 Worker.identity16)
      = .ok (Worker.initState, []) ∧
    Worker.onmessage Worker.trivialOps Worker.initState
        (.ParabolicRaycast ⟨0, 1, 0⟩ ⟨2, 2, 0⟩)
      = .ok (Worker.initState,
          [[.tag .RaycastUpdate, .nan, .nan, .nan, .nan, .nan, .nan]]) ∧
    Worker.onmessage Worker.trivialOps Worker.initState (.Init ⟨0, 2, 0⟩)
      = .ok ({ Worker.initState with
                engine := some (Worker.trivialOps.mk0 ⟨0, 2, 0⟩) }, []) ∧
    Worker.onmessage Worker.trivialOps Worker.initState
        (.Config none none none none (some 90))
      = .ok ({ Worker.initState with
                updateFrequency := (some (90 : ℚ)).getD
                  Worker.initState.updateFrequency }, []) ∧
    (((none : Option ℚ).isSome ∨ (none : Option ℚ).isSome ∨
        (some (2 : ℚ)).isSome ∨ (none : Option ℚ).isSome) →
      Worker.onmessage Worker.trivialOps Worker.initState
          (.Config none none (some 2) none (some 90))
        = .error ()) :=
  before_init_dispatch Worker.trivialOps Worker.initState
    ⟨1, 0, 0⟩ ⟨0, 5, 0⟩ ⟨0, 1, 0⟩ ⟨2, 2, 0⟩ ⟨0, 2, 0⟩ 3
    (some [0, 0, 0]) (some [0]) none none Worker.identity16
    none none (some 2) none (some 90) rfl

/-- Claim C3: after `Init`, every `ParabolicRaycast` request is answered
by exactly one `RaycastUpdate` whose six payload slots are all NaN exactly
when the sampler reports no hit and otherwise hold the hit point (slots
1-3) and the hit triangle's normal (slots 4-6); the worker state — the
engine and the tracked-handle set — is unchanged.  The sampler is
modelled from the spec as reporting a face with every hit. -/
theorem parabolicRaycast_response
    (ops : Worker.EngineOps) (s : Worker.WorkerState) (e : Worker.Engine)
    (o d : Worker.Vec3Q)
    (hs : s.engine = some e)
    (hface : ∀ i, ops.parabolicRaycast e o d = some i → i.face.isSome = true) :
    Worker.onmessage ops s (.ParabolicRaycast o d)
      = .ok (s, [Worker.buildRaycastResponse (ops.parabolicRaycast e o d)]) ∧
    ((Worker.buildRaycastResponse (ops.parabolicRaycast e o d)).drop 1
        = [.nan, .nan, .nan, .nan, .nan, .nan]
      ↔ ops.parabolicRaycast e o d = none) ∧
    (∀ i f, ops.parabolicRaycast e o d = some i → i.face = some f →
      Worker.buildRaycastResponse (ops.parabolicRaycast e o d)
        = [.tag .RaycastUpdate, .num i.point.x, .num i.point.y,
           .num i.point.z, .num f.normal.x, .num f.normal.y,
           .num f.normal.z]) := by
  refine ⟨by simp [Worker.onmessage, hs], ?_, ?_⟩
  · cases hr : ops.parabolicRaycast e o d with
    | none => simp [Worker.buildRaycastResponse]
    | some i =>
      have hf := hface i hr
      cases hfe : i.face with
      | none => rw [hfe] at hf; simp at hf
      | some f => simp [Worker.buildRaycastResponse, hfe]
  · intro i f hr hfe
    rw [hr]
    simp [Worker.buildRaycastResponse, hfe]

/-- Claim C3 witness: the theorem at an engine whose raycast hits point
`(1, 2, 3)` with face normal `(0, 1, 0)`. -/
theorem parabolicRaycast_response_witness :
    Worker.onmessage Worker.hitOps Worker.sEng
        (.ParabolicRaycast ⟨0, 2, 0⟩ ⟨2, 2, 0⟩)
      = .ok (Worker.sEng,
          [Worker.buildRaycastResponse
            (Worker.hitOps.parabolicRaycast Worker.engine0 ⟨0, 2, 0⟩ ⟨2, 2, 0⟩)]) ∧
    ((Worker.buildRaycastResponse
        (Worker.hitOps.parabolicRaycast Worker.engine0 ⟨0, 2, 0⟩ ⟨2, 2, 0⟩)).drop 1
        = [.nan, .nan, .nan, .nan, .nan, .nan]
      ↔ Worker.hitOps.parabolicRaycast Worker.engine0 ⟨0, 2, 0⟩ ⟨2, 2, 0⟩ = none) ∧
    (∀ i f,
      Worker.hitOps.parabolicRaycast Worker.engine0 ⟨0, 2, 0⟩ ⟨2, 2, 0⟩ = some i →
      i.face = some f →
      Worker.buildRaycastResponse
          (Worker.hitOps.parabolicRaycast Worker.engine0 ⟨0, 2, 0⟩ ⟨2, 2, 0⟩)
        = [.tag .RaycastUpdate, .num i.point.x, .num i.point.y,
           .num i.point.z, .num f.normal.x, .num f.normal.y,
           .num f.normal.z]) :=
  parabolicRaycast_response Worker.hitOps Worker.sEng Worker.engine0
    ⟨0, 2, 0⟩ ⟨2, 2, 0⟩ rfl (by intro i hr; cases hr; rfl)

/-- Claim C4 counterexample: on a tick in which the engine is updating,
the posted `PositionUpdate` does not place the grounded flag directly
after the three position floats — slot 4 (the slot immediately after the
position) holds the NaN fill, and the flag sits at slot 5. -/
theorem positionUpdate_layout_cex :
    (Worker.update Worker.updOps Worker.sEng).2
      = [[.tag .PositionUpdate, .num 0, .num 0, .num 0, .nan, .num 1, .nan]] ∧
    ((Worker.update Worker.updOps Worker.sEng).2.getD 0 []).getD 4 .nan
      = .nan ∧
    Worker.Slot.nan ≠ .num 1 ∧ Worker.Slot.nan ≠ .num 0 := by
  refine ⟨rfl, rfl, by decide, by decide⟩

/-- Claim C4 amended: on every tick with an initialized engine, a
`PositionUpdate` is posted if and only if the engine is updating after
the tick's engine update — hence at most one per tick — and the response
layout is: kind tag at slot 0, the player position floats at slots 1-3,
slot 4 left NaN, the grounded flag (1 or 0) at slot 5, and slot 6 NaN. -/
theorem positionUpdate_per_tick
    (ops : Worker.EngineOps) (s : Worker.WorkerState) (e : Worker.Engine)
    (hs : s.engine = some e) :
    (Worker.update ops s).1
      = { s with engine := some (ops.update e (1 / s.updateFrequency)) } ∧
    ((Worker.update ops s).2 ≠ []
      ↔ (ops.update e (1 / s.updateFrequency)).updating = true) ∧
    ((ops.update e (1 / s.updateFrequency)).updating = true →
      (Worker.update ops s).2
        = [[.tag .PositionUpdate,
            .num (ops.update e (1 / s.updateFrequency)).playerPosition.x,
            .num (ops.update e (1 / s.updateFrequency)).playerPosition.y,
            .num (ops.update e (1 / s.updateFrequency)).playerPosition.z,
            .nan,
            .num (if (ops.update e (1 / s.updateFrequency)).isGrounded
              then 1 else 0),
            .nan]]) ∧
    ((ops.update e (1 / s.updateFrequency)).updating = false →
      (Worker.update ops s).2 = []) := by
  cases hu : (ops.update e (1 / s.updateFrequency)).updating
  · have hu2 : (ops.update e (s.updateFrequency)⁻¹).updating = false := by
      rw [← one_div]; exact hu
    refine ⟨by simp [Worker.update, hs, hu2],
      by simp [Worker.update, hs, hu2], ?_,
      fun _ => by simp [Worker.update, hs, hu2]⟩
    exact fun h => Bool.noConfusion h
  · have hu2 : (ops.update e (s.updateFrequency)⁻¹).updating = true := by
      rw [← one_div]; exact hu
    refine ⟨by simp [Worker.update, hs, hu2],
      by simp [Worker.update, hs, hu2],
      fun _ => by simp [Worker.update, hs, hu2], ?_⟩
    exact fun h => Bool.noConfusion h

/-- Claim C4 witness: the amended theorem at an engine whose update
leaves it updating and grounded at the origin. -/
theorem positionUpdate_per_tick_witness :
    (Worker.update Worker.updOps Worker.sEng).1
      = { Worker.sEng with
            engine := some (Worker.updOps.update Worker.engine0
              (1 / Worker.sEng.updateFrequency)) } ∧
    ((Worker.update Worker.updOps Worker.sEng).2 ≠ []
      ↔ (Worker.updOps.update Worker.engine0
          (1 / Worker.sEng.updateFrequency)).updating = true) ∧
    ((Worker.updOps.update Worker.engine0
        (1 / Worker.sEng.updateFrequency)).updating = true →
      (Worker.update Worker.updOps Worker.sEng).2
        = [[.tag .PositionUpdate,
            .num (Worker.updOps.update Worker.engine0
              (1 / Worker.sEng.updateFrequency)).playerPosition.x,
            .num (Worker.updOps.update Worker.engine0
              (1 / Worker.sEng.updateFrequency)).playerPosition.y,
            .num (Worker.updOps.update Worker.engine0
              (1 / Worker.sEng.updateFrequency)).playerPosition.z,
            .nan,
            .num (if (Worker.updOps.update Worker.engine0
              (1 / Worker.sEng.updateFrequency)).isGrounded then 1 else 0),
            .nan]]) ∧
    ((Worker.updOps.update Worker.engine0
        (1 / Worker.sEng.updateFrequency)).updating = false →
      (Worker.update Worker.updOps Worker.sEng).2 = []) :=
  positionUpdate_per_tick Worker.updOps Worker.sEng Worker.engine0 rfl

/-- Claim C7: for every non-negative ground distance `d`, float height
`f`, and capsule radius `R`, the player is grounded exactly when
`d < f + R + 0.15` (the threshold with the default buffer 0.15); a
distance exactly equal to the threshold is not grounded. -/
theorem isGrounded_iff_below_threshold (d f R : ℚ) (_hd : 0 ≤ d) :
    (PhysicsUtils.isGrounded d
        (PhysicsUtils.calculateGroundingThreshold f R (15 / 100)) = true
      ↔ d < f + R + 15 / 100) ∧
    (d = f + R + 15 / 100 →
      PhysicsUtils.isGrounded d
        (PhysicsUtils.calculateGroundingThreshold f R (15 / 100)) = false) := by
  constructor
  · simp [PhysicsUtils.isGrounded, PhysicsUtils.calculateGroundingThreshold]
  · intro h
    simp [PhysicsUtils.isGrounded, PhysicsUtils.calculateGroundingThreshold, h]

/-- Claim C7 witness: at `f = 1/2`, `R = 1/4` the threshold is `9/10`;
the distance `9/10` itself is not grounded while any smaller distance is
characterized by the strict comparison. -/
theorem isGrounded_iff_below_threshold_witness :
    ((PhysicsUtils.isGrounded (9 / 10)
        (PhysicsUtils.calculateGroundingThreshold (1 / 2) (1 / 4) (15 / 100)) = true
      ↔ (9 / 10 : ℚ) < 1 / 2 + 1 / 4 + 15 / 100) ∧
    ((9 / 10 : ℚ) = 1 / 2 + 1 / 4 + 15 / 100 →
      PhysicsUtils.isGrounded (9 / 10)
        (PhysicsUtils.calculateGroundingThreshold (1 / 2) (1 / 4) (15 / 100))
        = false)) :=
  isGrounded_iff_below_threshold (9 / 10) (1 / 2) (1 / 4) (by norm_num)

/-- The squared length is non-negative. -/
theorem Vec3R.lengthSq_nonneg (v : Vec3R) : 0 ≤ v.lengthSq := by
  have hx := mul_self_nonneg v.x
  have hy := mul_self_nonneg v.y
  have hz := mul_self_nonneg v.z
  unfold Vec3R.lengthSq
  linarith

/-- The length squares back to the squared length. -/
theorem Vec3R.length_mul_self (v : Vec3R) : v.length * v.length = v.lengthSq :=
  Real.mul_self_sqrt v.lengthSq_nonneg

/-- The length is non-negative. -/
theorem Vec3R.length_nonneg (v : Vec3R) : 0 ≤ v.length :=
  Real.sqrt_nonneg _

/-- The length vanishes exactly when the squared length does. -/
theorem Vec3R.length_eq_zero_iff (v : Vec3R) : v.length = 0 ↔ v.lengthSq = 0 := by
  unfold Vec3R.length
  rw [Real.sqrt_eq_zero v.lengthSq_nonneg]

/-- Scaling multiplies the squared length by the square of the scalar. -/
theorem Vec3R.lengthSq_smul (c : ℝ) (v : Vec3R) :
    (Vec3R.smul c v).lengthSq = c ^ 2 * v.lengthSq := by
  unfold Vec3R.smul Vec3R.lengthSq
  ring

/-- Scaling multiplies the length by the absolute value of the scalar. -/
theorem Vec3R.length_smul (c : ℝ) (v : Vec3R) :
    (Vec3R.smul c v).length = |c| * v.length := by
  unfold Vec3R.length
  rw [Vec3R.lengthSq_smul, Real.sqrt_mul (sq_nonneg c), Real.sqrt_sq_eq_abs]

/-- Composing two scalings multiplies the scalars. -/
theorem Vec3R.smul_smul (a b : ℝ) (v : Vec3R) :
    Vec3R.smul a (Vec3R.smul b v) = Vec3R.smul (a * b) v := by
  simp only [Vec3R.smul, Vec3R.mk.injEq]
  refine ⟨by ring, by ring, by ring⟩

/-- Claim C9: for every velocity `v` and cap `m ≥ 0`, `capVelocity` leaves
the magnitude at most `m`; a velocity already of magnitude at most `m` is
unchanged; a longer velocity is rescaled to the same direction with
magnitude exactly `m`; and the cap is idempotent. -/
theorem capVelocity_caps (v : Vec3R) (m : ℝ) (hm : 0 ≤ m) :
    (PhysicsUtils.capVelocity v m).length ≤ m ∧
    (v.length ≤ m → PhysicsUtils.capVelocity v m = v) ∧
    (m < v.length →
      PhysicsUtils.capVelocity v m = Vec3R.smul (m / v.length) v ∧
      (PhysicsUtils.capVelocity v m).length = m) ∧
    PhysicsUtils.capVelocity (PhysicsUtils.capVelocity v m) m
      = PhysicsUtils.capVelocity v m := by
  have hls := v.length_mul_self
  have hln := v.length_nonneg
  by_cases hc : v.lengthSq > m * m
  · have hlm : m < v.length := by nlinarith
    have hl0 : v.length ≠ 0 := by intro h; rw [h] at hlm; linarith
    have hcap : PhysicsUtils.capVelocity v m = Vec3R.smul (m / v.length) v := by
      unfold PhysicsUtils.capVelocity Vec3R.normalize
      rw [if_pos hc, if_neg hl0, Vec3R.smul_smul, mul_one_div]
    have hlen : (Vec3R.smul (m / v.length) v).length = m := by
      rw [Vec3R.length_smul, abs_of_nonneg (div_nonneg hm hln)]
      field_simp
    refine ⟨by rw [hcap, hlen], fun hle => by linarith,
      fun _ => ⟨hcap, by rw [hcap, hlen]⟩, ?_⟩
    have h2 : (Vec3R.smul (m / v.length) v).lengthSq = m * m := by
      rw [Vec3R.lengthSq_smul, ← hls]
      field_simp
      ring
    have hno : ¬ ((Vec3R.smul (m / v.length) v).lengthSq > m * m) := by
      rw [h2]; exact lt_irrefl _
    rw [hcap]
    unfold PhysicsUtils.capVelocity
    rw [if_neg hno]
  · have hcap : PhysicsUtils.capVelocity v m = v := by
      unfold PhysicsUtils.capVelocity; rw [if_neg hc]
    have hle2 : v.lengthSq ≤ m * m := not_lt.mp hc
    have hlem : v.length ≤ m := by nlinarith
    refine ⟨by rw [hcap]; exact hlem, fun _ => hcap,
      fun hgt => absurd hgt (not_lt.mpr hlem), by rw [hcap, hcap]⟩

/-- Claim C9 witness: the theorem at `v = (6, 8, 0)` (magnitude 10) and
`m = 5`. -/
theorem capVelocity_caps_witness :
    (PhysicsUtils.capVelocity ⟨6, 8, 0⟩ 5).length ≤ 5 ∧
    (Vec3R.length ⟨6, 8, 0⟩ ≤ 5 → PhysicsUtils.capVelocity ⟨6, 8, 0⟩ 5 = ⟨6, 8, 0⟩) ∧
    ((5 : ℝ) < Vec3R.length ⟨6, 8, 0⟩ →
      PhysicsUtils.capVelocity ⟨6, 8, 0⟩ 5
        = Vec3R.smul (5 / Vec3R.length ⟨6, 8, 0⟩) ⟨6, 8, 0⟩ ∧
      (PhysicsUtils.capVelocity ⟨6, 8, 0⟩ 5).length = 5) ∧
    PhysicsUtils.capVelocity (PhysicsUtils.capVelocity ⟨6, 8, 0⟩ 5) 5
      = PhysicsUtils.capVelocity ⟨6, 8, 0⟩ 5 :=
  capVelocity_caps ⟨6, 8, 0⟩ 5 (by norm_num)

/-- For unit vectors the `angleTo` computation reduces to the arccosine
of the dot product: the square root of the product of the squared lengths
is 1, and the clamp is the identity because the dot product of unit
vectors lies in `[-1, 1]` (Lagrange's identity). -/
theorem Vec3R.angleTo_unit (a b : Vec3R)
    (ha : a.lengthSq = 1) (hb : b.lengthSq = 1) :
    a.angleTo b = Real.arccos (a.dot b) := by
  have hd2 : a.dot b * a.dot b ≤ 1 := by
    have h1 : a.dot b * a.dot b
        + ((a.x * b.y - a.y * b.x) * (a.x * b.y - a.y * b.x)
          + (a.x * b.z - a.z * b.x) * (a.x * b.z - a.z * b.x)
          + (a.y * b.z - a.z * b.y) * (a.y * b.z - a.z * b.y))
        = a.lengthSq * b.lengthSq := by
      unfold Vec3R.dot Vec3R.lengthSq
      ring
    rw [ha, hb] at h1
    nlinarith [mul_self_nonneg (a.x * b.y - a.y * b.x),
      mul_self_nonneg (a.x * b.z - a.z * b.x),
      mul_self_nonneg (a.y * b.z - a.z * b.y)]
  have hub : a.dot b ≤ 1 := by nlinarith
  have hlb : -1 ≤ a.dot b := by nlinarith
  unfold Vec3R.angleTo Vec3R.clamp
  rw [ha, hb]
  norm_num
  rw [min_eq_right hub, max_eq_right hlb]

/-- Claim C8 counterexample: the unit normal `(1, 0, 0)` makes the angle
exactly `π/2` with the up-axis `(0, 1, 0)`, yet with `maxSlope = π/2` the
surface is not classified as a walkable floor — refuting the claim that
an angle exactly equal to the slope limit is still a floor. -/
theorem isWalkableSlope_boundary_cex :
    Vec3R.lengthSq ⟨1, 0, 0⟩ = 1 ∧
    Vec3R.lengthSq ⟨0, 1, 0⟩ = 1 ∧
    Vec3R.angleTo ⟨1, 0, 0⟩ ⟨0, 1, 0⟩ = Real.pi / 2 ∧
    ¬ PhysicsUtils.isWalkableSlope ⟨1, 0, 0⟩ ⟨0, 1, 0⟩ (Real.pi / 2) := by
  have h1 : Vec3R.lengthSq ⟨1, 0, 0⟩ = 1 := by
    unfold Vec3R.lengthSq; norm_num
  have h2 : Vec3R.lengthSq ⟨0, 1, 0⟩ = 1 := by
    unfold Vec3R.lengthSq; norm_num
  have hang : Vec3R.angleTo ⟨1, 0, 0⟩ ⟨0, 1, 0⟩ = Real.pi / 2 := by
    rw [Vec3R.angleTo_unit _ _ h1 h2]
    have hd : Vec3R.dot ⟨1, 0, 0⟩ ⟨0, 1, 0⟩ = 0 := by
      unfold Vec3R.dot; norm_num
    rw [hd, Real.arccos_zero]
  refine ⟨h1, h2, hang, ?_⟩
  unfold PhysicsUtils.isWalkableSlope
  rw [hang]
  exact lt_irrefl _

/-- Claim C8 amended: for unit vectors, the surface is classified as a
walkable floor if and only if the angle between the normal and the
up-axis is strictly less than `maxSlope`; a normal whose angle equals
`maxSlope` exactly is not a floor. -/
theorem isWalkableSlope_strict (n u : Vec3R) (maxSlope : ℝ)
    (hn : n.lengthSq = 1) (hu : u.lengthSq = 1) :
    (PhysicsUtils.isWalkableSlope n u maxSlope
      ↔ Real.arccos (n.dot u) < maxSlope) ∧
    (Real.arccos (n.dot u) = maxSlope →
      ¬ PhysicsUtils.isWalkableSlope n u maxSlope) := by
  have hang := Vec3R.angleTo_unit n u hn hu
  constructor
  · unfold PhysicsUtils.isWalkableSlope
    rw [hang]
  · intro he
    unfold PhysicsUtils.isWalkableSlope
    rw [hang, he]
    exact lt_irrefl _

/-- Claim C8 witness: the amended theorem at the flat normal `(0, 1, 0)`,
the up-axis `(0, 1, 0)`, and `maxSlope = 1`. -/
theorem isWalkableSlope_strict_witness :
    (PhysicsUtils.isWalkableSlope ⟨0, 1, 0⟩ ⟨0, 1, 0⟩ 1
      ↔ Real.arccos (Vec3R.dot ⟨0, 1, 0⟩ ⟨0, 1, 0⟩) < 1) ∧
    (Real.arccos (Vec3R.dot ⟨0, 1, 0⟩ ⟨0, 1, 0⟩) = 1 →
      ¬ PhysicsUtils.isWalkableSlope ⟨0, 1, 0⟩ ⟨0, 1, 0⟩ 1) :=
  isWalkableSlope_strict ⟨0, 1, 0⟩ ⟨0, 1, 0⟩ 1
    (by unfold Vec3R.lengthSq; norm_num)
    (by unfold Vec3R.lengthSq; norm_num)

/-- Claim C1 counterexample: at start height 10 over `minY = 0` with
`V_y = 5` and `g = -10`, the end time computed by the sampler's formula
is `-1` — a root of the trajectory quadratic, but not the positive one
(the positive root is `2`). -/
theorem tEnd_positive_root_cex :
    MathUtils.tEnd 10 5 0 (-10) = -1 ∧
    ¬ (0 < MathUtils.tEnd 10 5 0 (-10)) ∧
    MathUtils.trajQuadratic 10 5 0 (-10) (MathUtils.tEnd 10 5 0 (-10)) = 0 ∧
    MathUtils.trajQuadratic 10 5 0 (-10) 2 = 0 ∧ (0 : ℝ) < 2 ∧
    MathUtils.tEnd 10 5 0 (-10) ≠ 2 := by
  have hsq : Real.sqrt ((5 : ℝ) * 5 - 4 * (0.5 * (-10)) * (10 - 0)) = 15 := by
    rw [show ((5 : ℝ) * 5 - 4 * (0.5 * (-10)) * (10 - 0)) = 15 ^ 2 by norm_num]
    exact Real.sqrt_sq (by norm_num)
  have ht : MathUtils.tEnd 10 5 0 (-10) = -1 := by
    unfold MathUtils.tEnd
    rw [hsq]
    norm_num
  refine ⟨ht, by rw [ht]; norm_num, ?_, ?_, by norm_num, by rw [ht]; norm_num⟩
  · rw [ht]; unfold MathUtils.trajQuadratic; norm_num
  · unfold MathUtils.trajQuadratic; norm_num

/-- Claim C1 amended: for every start height above `minY`, every initial
vertical velocity, and every gravity `g < 0`, the end time computed by
the sampler's formula is a root of the trajectory quadratic, but it is
the negative root; the positive root is the other branch of the
quadratic formula, `(-b - sqrt(b^2 - 4ac)) / (2a)`. -/
theorem tEnd_is_negative_root (Py Vy minY g : ℝ)
    (h1 : minY < Py) (h2 : g < 0) :
    MathUtils.trajQuadratic Py Vy minY g (MathUtils.tEnd Py Vy minY g) = 0 ∧
    MathUtils.tEnd Py Vy minY g < 0 ∧
    0 < (-Vy - Real.sqrt (Vy * Vy - 4 * (0.5 * g) * (Py - minY)))
        / (2 * (0.5 * g)) ∧
    MathUtils.trajQuadratic Py Vy minY g
        ((-Vy - Real.sqrt (Vy * Vy - 4 * (0.5 * g) * (Py - minY)))
          / (2 * (0.5 * g))) = 0 := by
  have hg : g ≠ 0 := ne_of_lt h2
  set D := Vy * Vy - 4 * (0.5 * g) * (Py - minY) with hD
  have hDgt : Vy * Vy < D := by rw [hD]; nlinarith
  have hDnn : 0 ≤ D := le_trans (mul_self_nonneg Vy) (le_of_lt hDgt)
  have hs2 : Real.sqrt D * Real.sqrt D = D := Real.mul_self_sqrt hDnn
  have hsnn : 0 ≤ Real.sqrt D := Real.sqrt_nonneg D
  have hVys : Vy < Real.sqrt D := by nlinarith
  have hnVys : -Vy < Real.sqrt D := by nlinarith
  have hden : 2 * (0.5 * g) = g := by ring
  have ht : MathUtils.tEnd Py Vy minY g = (-Vy + Real.sqrt D) / g := by
    unfold MathUtils.tEnd
    rw [← hD, hden]
  refine ⟨?_, ?_, ?_, ?_⟩
  · rw [ht]
    unfold MathUtils.trajQuadratic
    field_simp
    linear_combination (g ^ 2 / 2) * hs2
  · rw [ht]
    apply div_neg_of_pos_of_neg _ h2
    linarith
  · rw [hden]
    apply div_pos_of_neg_of_neg _ h2
    linarith
  · rw [hden]
    unfold MathUtils.trajQuadratic
    field_simp
    linear_combination (g ^ 2 / 2) * hs2

/-- Claim C1 witness: the amended theorem at start height 10, vertical
velocity 5, floor 0, gravity -10. -/
theorem tEnd_is_negative_root_witness :
    MathUtils.trajQuadratic 10 5 0 (-10) (MathUtils.tEnd 10 5 0 (-10)) = 0 ∧
    MathUtils.tEnd 10 5 0 (-10) < 0 ∧
    0 < (-(5 : ℝ) - Real.sqrt (5 * 5 - 4 * (0.5 * (-10)) * (10 - 0)))
        / (2 * (0.5 * (-10))) ∧
    MathUtils.trajQuadratic 10 5 0 (-10)
        ((-(5 : ℝ) - Real.sqrt (5 * 5 - 4 * (0.5 * (-10)) * (10 - 0)))
          / (2 * (0.5 * (-10)))) = 0 :=
  tEnd_is_negative_root 10 5 0 (-10) (by norm_num) (by norm_num)

/-- Claim C5: with offset 0 and at least two points, `sampleParabolicCurve`
fills every point `i` with exactly
`P + V * t_i + (0, (1/2) * g * t_i ^ 2, 0)` at `t_i = (i / (N - 1)) * tEnd`
— the samples are uniformly parameterized over `[0, tEnd]` for the
sampler's computed end time — and point 0 equals the start point. -/
theorem sampleParabolicCurve_uniform (start direction : Vec3R) (minY g : ℝ)
    (N i : ℕ) (h1 : minY < start.y) (_h2 : g < 0) (hN : 2 ≤ N) (hi : i < N) :
    (MathUtils.sampleParabolicCurve start direction minY g N 0).length = N ∧
    (MathUtils.sampleParabolicCurve start direction minY g N 0).get? i
      = some
        ⟨start.x + direction.x
            * ((i : ℝ) / ((N : ℝ) - 1)
              * MathUtils.tEnd start.y direction.y minY g),
         start.y + direction.y
            * ((i : ℝ) / ((N : ℝ) - 1)
              * MathUtils.tEnd start.y direction.y minY g)
          + 0.5 * g
            * ((i : ℝ) / ((N : ℝ) - 1)
              * MathUtils.tEnd start.y direction.y minY g) ^ 2,
         start.z + direction.z
            * ((i : ℝ) / ((N : ℝ) - 1)
              * MathUtils.tEnd start.y direction.y minY g)⟩ ∧
    (MathUtils.sampleParabolicCurve start direction minY g N 0).get? 0
      = some start := by
  obtain ⟨sx, sy, sz⟩ := start
  have hcast : ((N - 1 : ℕ) : ℝ) = (N : ℝ) - 1 := by
    rw [Nat.cast_sub (by omega)]
    norm_num
  refine ⟨?_, ?_, ?_⟩
  · simp [MathUtils.sampleParabolicCurve]
  · unfold MathUtils.sampleParabolicCurve
    rw [List.get?_map, List.get?_range hi]
    simp only [Option.map_some', Nat.add_zero, Nat.zero_add]
    rw [hcast]
    simp only [Option.some.injEq, Vec3R.mk.injEq]
    refine ⟨by ring, by ring, by ring⟩
  · unfold MathUtils.sampleParabolicCurve
    rw [List.get?_map, List.get?_range (by omega : 0 < N)]
    simp only [Option.map_some', Nat.zero_add, Nat.cast_zero]
    norm_num

/-- Claim C5 witness: the theorem at start `(0, 10, 0)`, velocity
`(5, 8, 0)`, floor 0, gravity -10, 5 points, index 2. -/
theorem sampleParabolicCurve_uniform_witness :
    (MathUtils.sampleParabolicCurve ⟨0, 10, 0⟩ ⟨5, 8, 0⟩ 0 (-10) 5 0).length = 5 ∧
    (MathUtils.sampleParabolicCurve ⟨0, 10, 0⟩ ⟨5, 8, 0⟩ 0 (-10) 5 0).get? 2
      = some
        ⟨Vec3R.x ⟨0, 10, 0⟩ + Vec3R.x ⟨5, 8, 0⟩
            * (((2 : ℕ) : ℝ) / (((5 : ℕ) : ℝ) - 1)
              * MathUtils.tEnd (Vec3R.y ⟨0, 10, 0⟩) (Vec3R.y ⟨5, 8, 0⟩) 0 (-10)),
         Vec3R.y ⟨0, 10, 0⟩ + Vec3R.y ⟨5, 8, 0⟩
            * (((2 : ℕ) : ℝ) / (((5 : ℕ) : ℝ) - 1)
              * MathUtils.tEnd (Vec3R.y ⟨0, 10, 0⟩) (Vec3R.y ⟨5, 8, 0⟩) 0 (-10))
          + 0.5 * (-10)
            * (((2 : ℕ) : ℝ) / (((5 : ℕ) : ℝ) - 1)
              * MathUtils.tEnd (Vec3R.y ⟨0, 10, 0⟩) (Vec3R.y ⟨5, 8, 0⟩) 0 (-10)) ^ 2,
         Vec3R.z ⟨0, 10, 0⟩ + Vec3R.z ⟨5, 8, 0⟩
            * (((2 : ℕ) : ℝ) / (((5 : ℕ) : ℝ) - 1)
              * MathUtils.tEnd (Vec3R.y ⟨0, 10, 0⟩) (Vec3R.y ⟨5, 8, 0⟩) 0 (-10))⟩ ∧
    (MathUtils.sampleParabolicCurve ⟨0, 10, 0⟩ ⟨5, 8, 0⟩ 0 (-10) 5 0).get? 0
      = some ⟨0, 10, 0⟩ :=
  sampleParabolicCurve_uniform ⟨0, 10, 0⟩ ⟨5, 8, 0⟩ 0 (-10) 5 2
    (by norm_num) (by norm_num) (by norm_num) (by norm_num)
